import Mathlib

/-!
Verification of the 2DSpatialAnalogies environment generator.

The repository consists of successive Go variants of a small "environment"
object (`env.go`, `phase2/env_2.go`, and earlier unnamed variants) that
sample random points on a grid, derive scalars (Euclidean distance, bearing
angle, categorical face identities) and expose named output buffers plus
nested run/epoch/trial counters.

The shallow embedding below translates the Go sources:
  * machine integers become `Int` (no arithmetic here comes near overflow);
  * the `float64`/`float32` geometry (`math.Hypot`, `math.Atan2`) is
    idealised over `ℝ`;
  * the global `math/rand` source becomes an explicit stream of draws, and
    the unbounded `for { ... break }` rejection loops become fuel-indexed
    searches returning `Option` (`none` = the loop has not exited within
    `fuel` iterations);
  * the external `emergent/env.Ctr` counter (only declared and called by
    this repository) is modelled from the spec's description of the
    nested counters; the external `popcode` encoders are opaque external
    collaborators and are treated as parameters where they matter.

The integer-valued state (points, counters) is kept computable; the
real-valued derived scalars and buffer contents are separate functions of
the sampled points, mirroring the fact that `NewPoint` computes them from
the freshly sampled points only.
-/

namespace SpatialAnalogies

/-- Modelled from the spec: the external `emergent/env.TimeScales`
enumeration.  The repository's `Counter` switch handles `Run`, `Epoch` and
`Trial`; the remaining constructors stand for the other time scales of the
external library (an "unknown counter scale" for this environment). -/
inductive TimeScales where
  | NoTime
  | AnyTime
  | Event
  | Trial
  | Tick
  | Sequence
  | Block
  | Epoch
  | Run
  | Expt
deriving DecidableEq, Repr

/-- Modelled from the spec: the external `emergent/env.Ctr` counter record
(current value, previous value, changed flag, maximum, time scale), as
described by the spec's "Trial/Epoch/Run Counters" data model. -/
structure Ctr where
  Cur : Int
  Prv : Int
  Chg : Bool
  Max : Int
  Scale : TimeScales
deriving DecidableEq, Repr

/-- Modelled from the spec: `env.Ctr.Init` — reset at initialization
(`Cur = 0`, `Prv = -1`, no change recorded). -/
def ctrInit (c : Ctr) : Ctr :=
  { c with Cur := 0, Prv := -1, Chg := false }

/-- Modelled from the spec: `env.Ctr.Same` — record that the counter did
not change on this step (`Prv = Cur`, `Chg = false`). -/
def ctrSame (c : Ctr) : Ctr :=
  { c with Prv := c.Cur, Chg := false }

/-- Modelled from the spec: `env.Ctr.Incr` — advance the counter by one;
when a positive `Max` is reached the counter wraps around to 0 and the
wrap is reported (the spec's "incrementing the innermost (trial) past its
max resets it to 0 and increments the next (epoch)"). -/
def ctrIncr (c : Ctr) : Ctr × Bool :=
  let c1 : Ctr := { c with Chg := true, Prv := c.Cur, Cur := c.Cur + 1 }
  if 0 < c1.Max ∧ c1.Max ≤ c1.Cur then ({ c1 with Cur := 0 }, true) else (c1, false)

/-- Modelled from the spec: `env.Ctr.Query` — the (current, previous,
changed-this-call) triple. -/
def ctrQuery (c : Ctr) : Int × Int × Bool :=
  (c.Cur, c.Prv, c.Chg)

/-- Shape-level model of `ExEnv` in `env.go` after `Config`: the fields
that determine the `States` listing, the `State` lookup and `Validate`.
The population-encoder parameters set by `Config` (`MaxDist`, `DistPop`,
`AnglePop`, ...) are real-valued knobs of the external `popcode` encoders
and do not enter any shape, lookup or validation path. -/
structure ExEnvCfg where
  Nm : String
  Size : Int
  NAngleUnits : Int
  NDistUnits : Int
  egoShape : List Int
  attnShape : List Int
  alloShape : List Int
  distShape : List Int
  angleShape : List Int
  trialMax : Int
deriving DecidableEq, Repr

/-- `ExEnv.Config` from `env.go` (shape-relevant part): sets `Size`,
`NAngleUnits = 24`, `NDistUnits = 10`, `Trial.Max`, and the tensor shapes
`EgoInput : (2*sz-1) x (2*sz-1)`, `Attn : sz x sz`, `AlloInput : sz x sz`,
`Distance : NDistUnits`, `Angle : NAngleUnits`. -/
def configEnv (nm : String) (sz ntrls : Int) : ExEnvCfg :=
  { Nm := nm
    Size := sz
    NAngleUnits := 24
    NDistUnits := 10
    egoShape := [sz * 2 - 1, sz * 2 - 1]
    attnShape := [sz, sz]
    alloShape := [sz, sz]
    distShape := [10]
    angleShape := [24]
    trialMax := ntrls }

/-- `ExEnv.States` from `env.go`: the advertised name/shape listing. -/
def statesEls (e : ExEnvCfg) : List (String × List Int) :=
  [("EgoInput", [e.Size, e.Size]),
   ("Attn", [e.Size, e.Size]),
   ("AlloInput", [e.Size, e.Size]),
   ("Distance", [e.Size]),
   ("Angle", [e.Size])]

/-- `ExEnv.State` from `env.go`, at the level of the returned tensor's
shape: a switch over the element name, `none` (Go `nil`) for any other
name. -/
def stateShape (e : ExEnvCfg) (element : String) : Option (List Int) :=
  if element = "EgoInput" then some e.egoShape
  else if element = "Attn" then some e.attnShape
  else if element = "AlloInput" then some e.alloShape
  else if element = "Distance" then some e.distShape
  else if element = "Angle" then some e.angleShape
  else none

/-- `ExEnv.Validate` from `env.go`: an error exactly when `Size == 0`. -/
def validateErr (e : ExEnvCfg) : Option String :=
  if e.Size = 0 then some ("ExEnv: " ++ e.Nm ++ " has size == 0 -- need to Config")
  else none

/-- The integer-valued run state of `ExEnv` in `env.go`: grid size, the
three sampled points and the three counters.  The real-valued derived
fields (`DistVal`, `AngVal`) and the output buffers are functions of the
sampled points alone and are modelled separately (`goDist`, `goAng`,
`newPointBuffers`). -/
structure EnvSt where
  size : Int
  point : Int × Int
  point2 : Int × Int
  point3 : Int × Int
  run : Ctr
  epoch : Ctr
  trial : Ctr
deriving DecidableEq, Repr

/-- `ExEnv.Config` (counter part: `Trial.Max = ntrls`) followed by
`ExEnv.Init(run)` from `env.go`: set each counter's scale, `Init` each
counter, then `Run.Cur = run` and `Trial.Cur = -1` ("key so that first
Step() = 0").  Points carry Go's zero value. -/
def mkEnvInit (sz ntrls runIdx : Int) : EnvSt :=
  let zeroCtr : Ctr := { Cur := 0, Prv := 0, Chg := false, Max := 0, Scale := TimeScales.NoTime }
  let runC : Ctr := { ctrInit { zeroCtr with Scale := TimeScales.Run } with Cur := runIdx }
  let epochC : Ctr := ctrInit { zeroCtr with Scale := TimeScales.Epoch }
  let trialC : Ctr :=
    { ctrInit { zeroCtr with Max := ntrls, Scale := TimeScales.Trial } with Cur := -1 }
  { size := sz, point := (0, 0), point2 := (0, 0), point3 := (0, 0)
    run := runC, epoch := epochC, trial := trialC }

/-- `rand.Intn n` applied to one raw draw: a value in `[0, n)` for
positive `n` (Go panics for `n <= 0`; callers below guard on that). -/
def intn (n : Int) (k : Nat) : Int :=
  ((k % n.toNat : Nat) : Int)

/-- One sampled grid point: `X = rand.Intn(Size)`, `Y = rand.Intn(Size)`. -/
def samplePt (n : Int) (kv : Nat × Nat) : Int × Int :=
  (intn n kv.1, intn n kv.2)

/-- The rejection loop of `NewPoint` in `env.go`: redraw `Point2` until it
differs from `Point`.  The Go loop is unbounded; here it is indexed by
`fuel`, and `none` means the loop has not exited within `fuel` draws. -/
def findPoint2 (n : Int) (p : Int × Int) (stream : Nat → Nat × Nat) : Nat → Nat → Option (Int × Int)
  | _, 0 => none
  | i, Nat.succ fuel =>
    let q := samplePt n (stream i)
    if q ≠ p then some q else findPoint2 n p stream (i + 1) fuel

/-- The point-sampling part of `NewPoint` in `env.go`: sample `Point`,
then rejection-sample `Point2 ≠ Point`.  `none` when the grid size is not
positive (Go `rand.Intn` panics) or the rejection loop has not exited
within `fuel` draws. -/
def newPoint (n : Int) (stream : Nat → Nat × Nat) (fuel : Nat) :
    Option ((Int × Int) × (Int × Int)) :=
  if n ≤ 0 then none
  else
    let p := samplePt n (stream 0)
    (findPoint2 n p stream 1 fuel).map fun q => (p, q)

/-- The counter action of `ExEnv.Step` in `env.go`: `Epoch.Same()`, then
`Trial.Incr()`, incrementing `Epoch` when the trial counter wraps. -/
def stepCtrs (e : EnvSt) : EnvSt :=
  let epoch1 := ctrSame e.epoch
  let ti := ctrIncr e.trial
  let epoch2 := if ti.2 then (ctrIncr epoch1).1 else epoch1
  { e with epoch := epoch2, trial := ti.1 }

/-- The point-writing part of `NewPoint` in `env.go`: store `Point`,
`Point2` and `Point3 = (Size-1+xDist, Size-1+yDist)`. -/
def writePoints (e : EnvSt) (pq : (Int × Int) × (Int × Int)) : EnvSt :=
  { e with
    point := pq.1
    point2 := pq.2
    point3 := (e.size - 1 + (pq.2.1 - pq.1.1), e.size - 1 + (pq.2.2 - pq.1.2)) }

/-- `ExEnv.Step` from `env.go`: `Epoch.Same()`; `NewPoint()`; `Trial.Incr()`
rolling into `Epoch`; `return true`.  `none` when `NewPoint`'s rejection
loop does not exit within `fuel` draws (the Go code would still be
looping). -/
def Step (e : EnvSt) (stream : Nat → Nat × Nat) (fuel : Nat) : Option (EnvSt × Bool) :=
  (newPoint e.size stream fuel).map fun pq => (writePoints (stepCtrs e) pq, true)

/-- `n` consecutive calls to `Step`, call `k` drawing from `fam k`. -/
def stepN : Nat → EnvSt → (Nat → Nat → Nat × Nat) → Nat → Option EnvSt
  | 0, e, _, _ => some e
  | Nat.succ n, e, fam, fuel =>
    (Step e (fam 0) fuel).bind fun r => stepN n r.1 (fun k => fam (k + 1)) fuel

/-- `n` iterations of the counter action of `Step`. -/
def iterCtrs : Nat → EnvSt → EnvSt
  | 0, e => e
  | Nat.succ n, e => iterCtrs n (stepCtrs e)

/-- `ExEnv.Counter` from `env.go`: query the counter for a time scale,
returning `(-1, -1, false)` for any scale other than run/epoch/trial. -/
def counterQuery (e : EnvSt) (scale : TimeScales) : Int × Int × Bool :=
  if scale = TimeScales.Run then ctrQuery e.run
  else if scale = TimeScales.Epoch then ctrQuery e.epoch
  else if scale = TimeScales.Trial then ctrQuery e.trial
  else (-1, -1, false)

/-! ### The phase2 variant (`phase2/env_2.go`) -/

/-- The result of `NewPoint` in `phase2/env_2.go`: the two sampled face
indices, the face letters and the stored distance value. -/
structure P2Result where
  input1 : Nat
  input2 : Nat
  face1 : String
  face2 : String
  distVal : Int
deriving DecidableEq, Repr

/-- The face-letter switch of `NewPoint` in `phase2/env_2.go`: indices
0..3 map to "A".."D"; any other index leaves the previous value in place
(the Go switch has no default). -/
def p2SetFace (prev : String) (n : Nat) : String :=
  if n = 0 then "A"
  else if n = 1 then "B"
  else if n = 2 then "C"
  else if n = 3 then "D"
  else prev

/-- The rejection loop of `NewPoint` in `phase2/env_2.go`: redraw
`input2 = rand.Intn(4)` until it differs from `input1`; fuel-indexed as
for `findPoint2`. -/
def p2FindInput2 (input1 : Nat) (stream : Nat → Nat) : Nat → Nat → Option Nat
  | _, 0 => none
  | i, Nat.succ fuel =>
    let cand := stream i % 4
    if cand ≠ input1 then some cand else p2FindInput2 input1 stream (i + 1) fuel

/-- `NewPoint` from `phase2/env_2.go`: `input1 = rand.Intn(4)`;
rejection-sample `input2 ≠ input1`; `distance = input2 - input1`; set the
face letters and the stored values.  (The `Input1Pop`/`Input2Pop`/`DistPop`
encodings of these scalars go through the external `popcode` encoders and
carry no further information.) -/
def p2NewPoint (prevFace1 prevFace2 : String) (stream : Nat → Nat) (fuel : Nat) :
    Option P2Result :=
  let i1 := stream 0 % 4
  (p2FindInput2 i1 stream 1 fuel).map fun i2 =>
    { input1 := i1
      input2 := i2
      face1 := p2SetFace prevFace1 i1
      face2 := p2SetFace prevFace2 i2
      distVal := (i2 : Int) - (i1 : Int) }

/-! ### Derived geometry of `NewPoint` (real-valued, from `env.go` and
`unnamed/part_003`)

Go's `float64` arithmetic (`math.Hypot`, `math.Atan2`) is idealised over
`ℝ`. -/

/-- Go's `math.Atan2 y x`: the quadrant-corrected arc tangent, with the
usual conventions on the axes (`Atan2 0 x = 0` for `x > 0`, `Atan2 y 0 =
± π/2` for `y ≠ 0`, `Atan2 0 x = π` for `x < 0`, `Atan2 0 0 = 0`). -/
noncomputable def atan2 (y x : ℝ) : ℝ :=
  if 0 < x then Real.arctan (y / x)
  else if x < 0 then
    (if 0 ≤ y then Real.arctan (y / x) + Real.pi else Real.arctan (y / x) - Real.pi)
  else
    (if 0 < y then Real.pi / 2 else if y < 0 then -(Real.pi / 2) else 0)

/-- The Euclidean distance `math.Hypot xDist yDist` of `NewPoint` in
`env.go`. -/
noncomputable def goDist (xd yd : Int) : ℝ :=
  Real.sqrt ((xd : ℝ) ^ 2 + (yd : ℝ) ^ 2)

/-- The `ang0` branch variable of `NewPoint` in `env.go`: set in the two
branches with `yDist ≥ 0`, kept `0` otherwise. -/
noncomputable def goAng0 (xd yd : Int) : ℝ :=
  if 0 ≤ xd ∧ 0 ≤ yd then atan2 (yd : ℝ) (xd : ℝ) * 180 / Real.pi
  else if xd < 0 ∧ 0 ≤ yd then atan2 (yd : ℝ) (xd : ℝ) * 180 / Real.pi
  else 0

/-- The `ang360` branch variable of `NewPoint` in `env.go`: set in the two
branches with `yDist < 0`, kept `0` otherwise. -/
noncomputable def goAng360 (xd yd : Int) : ℝ :=
  if 0 ≤ xd ∧ 0 ≤ yd then 0
  else if xd < 0 ∧ 0 ≤ yd then 0
  else if 0 ≤ xd ∧ yd < 0 then 360 - |atan2 (yd : ℝ) (xd : ℝ)| * 180 / Real.pi
  else 360 + atan2 (yd : ℝ) (xd : ℝ) * 180 / Real.pi

/-- The bearing angle `ang = ang0 + ang360` of `NewPoint` in `env.go`. -/
noncomputable def goAng (xd yd : Int) : ℝ :=
  goAng0 xd yd + goAng360 xd yd

/-- The derived angle of `NewPoint` in `unnamed/part_003`:
`ang = MaxAngle * (Atan2(P2.Y-P.Y, P2.X-P.X) / π)` (with `MaxAngle = 10`
set by that variant's `Config`). -/
noncomputable def part3Ang (maxAngle px py qx qy : Int) : ℝ :=
  (maxAngle : ℝ) * (atan2 ((qy : ℝ) - (py : ℝ)) ((qx : ℝ) - (px : ℝ)) / Real.pi)

/-! ### Output buffers of `NewPoint` (from `env.go` and `unnamed/part_002`)

A 2D tensor is a function from (row, column) indices to values.  The
external `popcode` 2D encoders are opaque external collaborators; the
buffer pipelines below take them as parameters (for `env.go` the
encoder's two-argument form `Encode(tensor, vec)`, for `part_002` the
three-argument form `Encode(tensor, vec, add)`). -/

/-- A 2D output buffer: values indexed by (row, column). -/
def Grid : Type := Int × Int → ℝ

/-- `etensor.Float32.SetZeros`. -/
noncomputable def zeroGrid : Grid := fun _ => 0

/-- `etensor.Float32.SetFloat idx v`: pointwise update. -/
noncomputable def setG (g : Grid) (idx : Int × Int) (v : ℝ) : Grid :=
  fun p => if p = idx then v else g p

/-- The three 2D output buffers of `env.go`. -/
structure Buffers where
  attn : Grid
  egoInput : Grid
  alloInput : Grid

/-- The buffer pipeline of `NewPoint` in `env.go` (lines 176-192), in
statement order: `SetZeros` each of `EgoInput`, `Attn`, `AlloInput`; the
`SetFloat` writes of the sampled points; then the `popcode` `Encode`
calls.  `encAttn`/`encEgo`/`encAllo` are the external 2D encoders
(`AttnPop`, `EgoInputPop`, `AlloInputPop`), each taking the current grid
and the encoded (Y, X) value. -/
noncomputable def newPointBuffers (encAttn encEgo encAllo : Grid → Int × Int → Grid)
    (prev : Buffers) (size px py qx qy p3x p3y : Int) : Buffers :=
  let ego := prev.egoInput
  let attn := prev.attn
  let allo := prev.alloInput
  let ego := zeroGrid
  let attn := zeroGrid
  let allo := zeroGrid
  let attn := setG attn (py, px) 1
  let allo := setG allo (py, px) 1
  let allo := setG allo (qy, qx) 1
  let ego := setG ego (size - 1, size - 1) 1
  let ego := setG ego (p3y, p3x) 1
  let attn := encAttn attn (py, px)
  let ego := encEgo ego (size - 1, size - 1)
  let ego := encEgo ego (p3y, p3x)
  let allo := encAllo allo (py, px)
  let allo := encAllo allo (qy, qx)
  { attn := attn, egoInput := ego, alloInput := allo }

/-- The buffer pipeline of `NewPoint` in `unnamed/part_002` (lines
242-256): `SetZeros` each buffer; `Attn.SetFloat(point, 1)`; then the
`Encode` calls with their explicit add flags (`false` = overwrite,
`true` = accumulate). -/
noncomputable def newPointBuffersPart2 (encAttn encEgo encAllo : Grid → Int × Int → Bool → Grid)
    (prev : Buffers) (px py qx qy p3x p3y : Int) : Buffers :=
  let ego := prev.egoInput
  let attn := prev.attn
  let allo := prev.alloInput
  let ego := zeroGrid
  let attn := zeroGrid
  let allo := zeroGrid
  let attn := setG attn (py, px) 1
  let attn := encAttn attn (py, px) false
  let ego := encEgo ego (p3y, p3x) true
  let allo := encAllo allo (py, px) false
  let allo := encAllo allo (qy, qx) true
  { attn := attn, egoInput := ego, alloInput := allo }

/-! ## Helper lemmas -/

/-- On a 1x1 grid every draw is the point `(0, 0)`. -/
theorem samplePt_size_one (kv : Nat × Nat) : samplePt 1 kv = (0, 0) := by
  simp [samplePt, intn]

/-- On a 1x1 grid the `Point2 ≠ Point` rejection loop of `env.go` never
exits, whatever the draws and however many iterations it is given. -/
theorem findPoint2_size_one (stream : Nat → Nat × Nat) :
    ∀ fuel i : Nat, findPoint2 1 (0, 0) stream i fuel = none := by
  intro fuel
  induction fuel with
  | zero => intro i; rfl
  | succ n ih =>
    intro i
    simp only [findPoint2, samplePt_size_one, ne_eq, not_true_eq_false, if_false,
      ite_self]
    exact ih (i + 1)

/-- `Step` only moves the counters through the `Same`/`Incr` action
`stepCtrs`; `NewPoint` touches the points, not the counters or the size. -/
theorem step_counters (e : EnvSt) (stream : Nat → Nat × Nat) (fuel : Nat) (r : EnvSt × Bool)
    (h : Step e stream fuel = some r) :
    r.1.run = (stepCtrs e).run ∧ r.1.epoch = (stepCtrs e).epoch ∧
      r.1.trial = (stepCtrs e).trial ∧ r.1.size = e.size := by
  unfold Step at h
  rcases hnp : newPoint e.size stream fuel with _ | pq
  · rw [hnp] at h; simp at h
  · rw [hnp] at h
    simp only [Option.map_some'] at h
    obtain rfl : (writePoints (stepCtrs e) pq, true) = r := Option.some.inj h
    exact ⟨rfl, rfl, rfl, rfl⟩

/-- The counter action reads only the epoch and trial counters. -/
theorem stepCtrs_eq_of_ctrs_eq (a b : EnvSt) (he : a.epoch = b.epoch) (ht : a.trial = b.trial) :
    (stepCtrs a).epoch = (stepCtrs b).epoch ∧ (stepCtrs a).trial = (stepCtrs b).trial := by
  simp [stepCtrs, he, ht]

/-- Iterated form of `stepCtrs_eq_of_ctrs_eq`. -/
theorem iterCtrs_eq_of_ctrs_eq :
    ∀ (n : Nat) (a b : EnvSt), a.epoch = b.epoch → a.trial = b.trial →
      (iterCtrs n a).epoch = (iterCtrs n b).epoch ∧
        (iterCtrs n a).trial = (iterCtrs n b).trial := by
  intro n
  induction n with
  | zero => intro a b he ht; exact ⟨he, ht⟩
  | succ n ih =>
    intro a b he ht
    obtain ⟨he2, ht2⟩ := stepCtrs_eq_of_ctrs_eq a b he ht
    exact ih _ _ he2 ht2

/-- After `n` successful `Step` calls the epoch and trial counters are the
`n`-fold iterate of the counter action on the initial state. -/
theorem stepN_counters :
    ∀ (n : Nat) (e : EnvSt) (fam : Nat → Nat → Nat × Nat) (fuel : Nat) (e2 : EnvSt),
      stepN n e fam fuel = some e2 →
      e2.epoch = (iterCtrs n e).epoch ∧ e2.trial = (iterCtrs n e).trial := by
  intro n
  induction n with
  | zero =>
    intro e fam fuel e2 h
    obtain rfl : e = e2 := by simpa [stepN] using h
    exact ⟨rfl, rfl⟩
  | succ n ih =>
    intro e fam fuel e2 h
    unfold stepN at h
    rcases hs : Step e (fam 0) fuel with _ | r
    · rw [hs] at h; simp at h
    · rw [hs] at h
      simp only [Option.some_bind] at h
      obtain ⟨-, hep, htr, -⟩ := step_counters e (fam 0) fuel r hs
      obtain ⟨hep2, htr2⟩ := ih r.1 _ fuel e2 h
      obtain ⟨hc1, hc2⟩ := iterCtrs_eq_of_ctrs_eq n r.1 (stepCtrs e) hep htr
      exact ⟨hep2.trans hc1, htr2.trans hc2⟩

/-! ## Claims -/

/-- C1: the claim says the shape reported by `States` equals the actual
shape of the tensor returned by `State` for the same name.  The code
contradicts it (and the spec's "shape must match" glue invariant): with
`Config(5, 10)`, `States` lists `Distance`, `Angle` and `EgoInput` with
shapes `[5]`, `[5]` and `[5, 5]`, while the tensors configured by `Config`
have `NDistUnits = 10`, `NAngleUnits = 24` and `2*5-1 = 9` entries per
dimension respectively. -/
theorem c1_states_shape_mismatch :
    ("Distance", [(5 : Int)]) ∈ statesEls (configEnv "ExEnv" 5 10) ∧
      stateShape (configEnv "ExEnv" 5 10) "Distance" = some [10] ∧
      ("Angle", [(5 : Int)]) ∈ statesEls (configEnv "ExEnv" 5 10) ∧
      stateShape (configEnv "ExEnv" 5 10) "Angle" = some [24] ∧
      ("EgoInput", [(5 : Int), 5]) ∈ statesEls (configEnv "ExEnv" 5 10) ∧
      stateShape (configEnv "ExEnv" 5 10) "EgoInput" = some [9, 9] ∧
      ([(5 : Int)] ≠ [(10 : Int)]) ∧ ([(5 : Int)] ≠ [(24 : Int)]) ∧
      ([(5 : Int), 5] ≠ [(9 : Int), 9]) := by
  refine ⟨?_, rfl, ?_, rfl, ?_, rfl, by decide, by decide, by decide⟩ <;> decide

/-- C2 counterexample: with `trialsPerEpoch = 5`, after exactly 5 `Step`
calls (draws: `Point = (0,0)`, `Point2 = (1,1)` each trial, grid size 2)
the trial counter reads 4 and the epoch counter still reads 0 — not 0 and
1 as the claim states. -/
theorem c2_counterexample :
    (stepN 5 (mkEnvInit 2 5 0) (fun _ i => if i = 0 then (0, 0) else (1, 1)) 3).map
        (fun e => (e.trial.Cur, e.epoch.Cur)) = some (4, 0) ∧
      ((4 : Int), (0 : Int)) ≠ ((0 : Int), (1 : Int)) := by
  exact ⟨by decide, by decide⟩

/-- C2 amended: `Init` sets `Trial.Cur = -1` so the first `Step` brings
the trial counter to 0; with `trialsPerEpoch = 5` the rollover therefore
happens on the 6th `Step`: after 5 `Step` calls the trial counter reads 4
with the epoch still 0, and after 6 `Step` calls the trial counter reads 0
with the epoch incremented exactly once. -/
theorem c2_amended_rollover (runIdx : Int) (fam : Nat → Nat → Nat × Nat) (fuel : Nat)
    (e5 e6 : EnvSt)
    (h5 : stepN 5 (mkEnvInit 2 5 runIdx) fam fuel = some e5)
    (h6 : stepN 6 (mkEnvInit 2 5 runIdx) fam fuel = some e6) :
    e5.trial.Cur = 4 ∧ e5.epoch.Cur = 0 ∧ e6.trial.Cur = 0 ∧ e6.epoch.Cur = 1 := by
  obtain ⟨hep5, htr5⟩ := stepN_counters 5 _ fam fuel e5 h5
  obtain ⟨hep6, htr6⟩ := stepN_counters 6 _ fam fuel e6 h6
  refine ⟨?_, ?_, ?_, ?_⟩
  · rw [htr5]; rfl
  · rw [hep5]; rfl
  · rw [htr6]; rfl
  · rw [hep6]; rfl

/-- C2 amended, witness: the concrete 6-step run behind
`c2_amended_rollover`, with the same draws as the counterexample. -/
theorem c2_amended_rollover_witness :
    (⟨2, (0, 0), (1, 1), (2, 2),
        ⟨0, -1, false, 0, TimeScales.Run⟩,
        ⟨0, 0, false, 0, TimeScales.Epoch⟩,
        ⟨4, 3, true, 5, TimeScales.Trial⟩⟩ : EnvSt).trial.Cur = 4 ∧
      (⟨2, (0, 0), (1, 1), (2, 2),
        ⟨0, -1, false, 0, TimeScales.Run⟩,
        ⟨0, 0, false, 0, TimeScales.Epoch⟩,
        ⟨4, 3, true, 5, TimeScales.Trial⟩⟩ : EnvSt).epoch.Cur = 0 ∧
      (⟨2, (0, 0), (1, 1), (2, 2),
        ⟨0, -1, false, 0, TimeScales.Run⟩,
        ⟨1, 0, true, 0, TimeScales.Epoch⟩,
        ⟨0, 4, true, 5, TimeScales.Trial⟩⟩ : EnvSt).trial.Cur = 0 ∧
      (⟨2, (0, 0), (1, 1), (2, 2),
        ⟨0, -1, false, 0, TimeScales.Run⟩,
        ⟨1, 0, true, 0, TimeScales.Epoch⟩,
        ⟨0, 4, true, 5, TimeScales.Trial⟩⟩ : EnvSt).epoch.Cur = 1 :=
  c2_amended_rollover 0 (fun _ i => if i = 0 then (0, 0) else (1, 1)) 3 _ _
    (by decide) (by decide)

/-- C3: the claim says every rejection-sampling loop is attempt-bounded
with a defined failure outcome.  The code has no such bound: on a 1x1 grid
(`Size = 1` in `env.go`) the `Point2 ≠ Point` condition is unsatisfiable
and the loop never exits — `newPoint` fails to produce a result no matter
how many iterations (`fuel`) the loop is granted, and the Go original
simply hangs. -/
theorem c3_rejection_loop_never_exits (stream : Nat → Nat × Nat) (fuel : Nat) :
    newPoint 1 stream fuel = none := by
  have h1 : ¬ ((1 : Int) ≤ 0) := by decide
  simp only [newPoint, h1, if_false, samplePt_size_one]
  rw [findPoint2_size_one stream fuel 1]
  rfl

/-- C4 counterexample: the claim says configuration fails for every grid
size `≤ 0`.  In the code `Config` cannot fail at all, and even the
separate `Validate` accepts the configured environment with grid size
`-1` (it only rejects `Size == 0`). -/
theorem c4_counterexample :
    validateErr (configEnv "ExEnv" (-1) 10) = none ∧ ((-1 : Int) ≤ 0) := by
  exact ⟨rfl, by decide⟩

/-- C4 amended: `Config` itself never fails; invalid sizes are checked
only by the separate `Validate` method, which reports an error exactly
when the configured `Size` is 0 — negative grid sizes are accepted. -/
theorem c4_amended_validate (nm : String) (sz ntrls : Int) :
    (validateErr (configEnv nm sz ntrls) ≠ none) ↔ sz = 0 := by
  rcases eq_or_ne sz 0 with h | h <;> simp [validateErr, configEnv, h]

/-- Incrementing a counter whose current value is `-1` yields current
value `0` whether or not the counter wraps. -/
theorem ctrIncr_cur_of_neg_one (c : Ctr) (hc : c.Cur = -1) : ((ctrIncr c).1).Cur = 0 := by
  simp only [ctrIncr]
  split_ifs <;> simp [hc]

/-- The phase2 rejection loop only ever returns a value in `[0, 4)` that
differs from `input1`. -/
theorem p2FindInput2_spec (input1 : Nat) (stream : Nat → Nat) :
    ∀ fuel i v : Nat, p2FindInput2 input1 stream i fuel = some v → v < 4 ∧ v ≠ input1 := by
  intro fuel
  induction fuel with
  | zero => intro i v h; exact absurd h (by simp [p2FindInput2])
  | succ n ih =>
    intro i v h
    simp only [p2FindInput2] at h
    by_cases hc : stream i % 4 ≠ input1
    · rw [if_pos hc] at h
      obtain rfl := Option.some.inj h
      exact ⟨Nat.mod_lt _ (by norm_num), hc⟩
    · rw [if_neg hc] at h
      exact ih _ _ h

/-- The face-letter switch sends distinct indices below 4 to distinct
letters, whatever the previous values were. -/
theorem p2SetFace_distinct (p1 p2 : String) (a b : Nat) (ha : a < 4) (hb : b < 4)
    (hne : a ≠ b) : p2SetFace p1 a ≠ p2SetFace p2 b := by
  interval_cases a <;> interval_cases b <;> simp_all [p2SetFace]

/-- The face-letter switch lands in `{A, B, C, D}` for indices below 4. -/
theorem p2SetFace_mem (p : String) (a : Nat) (ha : a < 4) :
    p2SetFace p a ∈ (["A", "B", "C", "D"] : List String) := by
  interval_cases a <;> simp [p2SetFace]

/-- C6: for every element name that is not one of the five defined output
buffers, `State` returns Go `nil` (`none`), and for every time scale other
than run, epoch and trial, `Counter` returns the defined not-found triple
`(-1, -1, false)`; neither lookup can crash. -/
theorem c6_unknown_lookups (e : ExEnvCfg) (ec : EnvSt) (element : String) (scale : TimeScales)
    (hname : element ∉ (["EgoInput", "Attn", "AlloInput", "Distance", "Angle"] : List String))
    (hrun : scale ≠ TimeScales.Run) (hepoch : scale ≠ TimeScales.Epoch)
    (htrial : scale ≠ TimeScales.Trial) :
    stateShape e element = none ∧ counterQuery ec scale = (-1, -1, false) := by
  constructor
  · simp only [List.mem_cons, List.not_mem_nil, or_false, not_or] at hname
    obtain ⟨h1, h2, h3, h4, h5⟩ := hname
    simp [stateShape, h1, h2, h3, h4, h5]
  · simp [counterQuery, hrun, hepoch, htrial]

/-- C6 witness: the unknown name "Bogus" and the unknown scale `Event` on
a configured environment. -/
theorem c6_unknown_lookups_witness :
    stateShape (configEnv "ExEnv" 5 10) "Bogus" = none ∧
      counterQuery (mkEnvInit 2 5 0) TimeScales.Event = (-1, -1, false) :=
  c6_unknown_lookups (configEnv "ExEnv" 5 10) (mkEnvInit 2 5 0) "Bogus" TimeScales.Event
    (by decide) (by decide) (by decide) (by decide)

/-- C7: whenever `Step` returns, its boolean result is `true` — the
return value is reserved and currently always signals success.  (When the
rejection loop inside `NewPoint` does not exit, the Go code has not
returned at all; that is the `none` case, on which both sides agree.) -/
theorem c7_step_returns_true (e : EnvSt) (stream : Nat → Nat × Nat) (fuel : Nat) :
    (Step e stream fuel).map Prod.snd = (Step e stream fuel).map fun _ => true := by
  unfold Step
  rcases newPoint e.size stream fuel with _ | pq <;> rfl

/-- C9: immediately after `Init(run)` the trial counter queries as `-1`
(not 0) and the run counter queries as the `run` argument; the first
successful `Step` brings the trial counter to 0. -/
theorem c9_init_counters (sz ntrls runIdx : Int) (stream : Nat → Nat × Nat) (fuel : Nat)
    (r : EnvSt × Bool) (h : Step (mkEnvInit sz ntrls runIdx) stream fuel = some r) :
    (counterQuery (mkEnvInit sz ntrls runIdx) TimeScales.Trial).1 = -1 ∧
      (counterQuery (mkEnvInit sz ntrls runIdx) TimeScales.Run).1 = runIdx ∧
      r.1.trial.Cur = 0 := by
  refine ⟨rfl, rfl, ?_⟩
  obtain ⟨-, -, htr, -⟩ := step_counters _ stream fuel r h
  rw [htr]
  exact ctrIncr_cur_of_neg_one _ rfl

/-- C9 witness: a concrete first `Step` after `Init(7)` on a 2x2 grid. -/
theorem c9_init_counters_witness :
    (counterQuery (mkEnvInit 2 5 7) TimeScales.Trial).1 = -1 ∧
      (counterQuery (mkEnvInit 2 5 7) TimeScales.Run).1 = 7 ∧
      ((⟨2, (0, 0), (1, 1), (2, 2),
          ⟨7, -1, false, 0, TimeScales.Run⟩,
          ⟨0, 0, false, 0, TimeScales.Epoch⟩,
          ⟨0, -1, true, 5, TimeScales.Trial⟩⟩ : EnvSt), true).1.trial.Cur = 0 :=
  c9_init_counters 2 5 7 (fun i => if i = 0 then (0, 0) else (1, 1)) 3 _ (by decide)

/-- C10: whenever the phase2 `NewPoint` returns, the two face indices are
distinct values in `{0, 1, 2, 3}`, the face letters are distinct values
among A, B, C, D, and the stored distance `input2 - input1` is a nonzero
integer in `[-3, 3]`. -/
theorem c10_phase2_distinct_faces (pf1 pf2 : String) (stream : Nat → Nat) (fuel : Nat)
    (r : P2Result) (h : p2NewPoint pf1 pf2 stream fuel = some r) :
    r.input1 < 4 ∧ r.input2 < 4 ∧ r.input1 ≠ r.input2 ∧
      r.face1 ∈ (["A", "B", "C", "D"] : List String) ∧
      r.face2 ∈ (["A", "B", "C", "D"] : List String) ∧
      r.face1 ≠ r.face2 ∧
      r.distVal = (r.input2 : Int) - (r.input1 : Int) ∧
      r.distVal ≠ 0 ∧ (-3 : Int) ≤ r.distVal ∧ r.distVal ≤ 3 := by
  simp only [p2NewPoint] at h
  rcases hf : p2FindInput2 (stream 0 % 4) stream 1 fuel with _ | i2
  · rw [hf] at h; simp at h
  · rw [hf] at h
    simp only [Option.map_some'] at h
    obtain rfl := Option.some.inj h
    obtain ⟨h2lt, h2ne⟩ := p2FindInput2_spec (stream 0 % 4) stream fuel 1 i2 hf
    have h1lt : stream 0 % 4 < 4 := Nat.mod_lt _ (by norm_num)
    refine ⟨h1lt, h2lt, fun hcontra => h2ne hcontra.symm, p2SetFace_mem _ _ h1lt,
      p2SetFace_mem _ _ h2lt, p2SetFace_distinct _ _ _ _ h1lt h2lt
        (fun hcontra => h2ne hcontra.symm), rfl, ?_, ?_, ?_⟩
    · show (i2 : Int) - ((stream 0 % 4 : Nat) : Int) ≠ 0
      omega
    · show (-3 : Int) ≤ (i2 : Int) - ((stream 0 % 4 : Nat) : Int)
      omega
    · show (i2 : Int) - ((stream 0 % 4 : Nat) : Int) ≤ 3
      omega

/-- C10 witness: draws `0, 1, 2, ...` give `input1 = 0`, `input2 = 1`,
faces A and B, distance 1. -/
theorem c10_phase2_distinct_faces_witness :
    (⟨0, 1, "A", "B", 1⟩ : P2Result).input1 < 4 ∧
      (⟨0, 1, "A", "B", 1⟩ : P2Result).input2 < 4 ∧
      (⟨0, 1, "A", "B", 1⟩ : P2Result).input1 ≠ (⟨0, 1, "A", "B", 1⟩ : P2Result).input2 ∧
      (⟨0, 1, "A", "B", 1⟩ : P2Result).face1 ∈ (["A", "B", "C", "D"] : List String) ∧
      (⟨0, 1, "A", "B", 1⟩ : P2Result).face2 ∈ (["A", "B", "C", "D"] : List String) ∧
      (⟨0, 1, "A", "B", 1⟩ : P2Result).face1 ≠ (⟨0, 1, "A", "B", 1⟩ : P2Result).face2 ∧
      (⟨0, 1, "A", "B", 1⟩ : P2Result).distVal =
        ((⟨0, 1, "A", "B", 1⟩ : P2Result).input2 : Int) -
          ((⟨0, 1, "A", "B", 1⟩ : P2Result).input1 : Int) ∧
      (⟨0, 1, "A", "B", 1⟩ : P2Result).distVal ≠ 0 ∧
      (-3 : Int) ≤ (⟨0, 1, "A", "B", 1⟩ : P2Result).distVal ∧
      (⟨0, 1, "A", "B", 1⟩ : P2Result).distVal ≤ 3 :=
  c10_phase2_distinct_faces "" "" (fun n => n) 2 _ (by decide)

/-- C8: during `NewPoint` each 2D output buffer is cleared to zeros
(`SetZeros`) before the new trial's activations are written, so the
buffers after the step are independent of whatever a previous trial left
in them — stated for the `env.go` pipeline and for the `part_002`
pipeline, for every behaviour of the external `popcode` encoders.  (The
code is single-threaded and `Step` runs to completion, so no intermediate
buffer state is observable.) -/
theorem c8_buffers_cleared_no_carryover :
    (∀ (encAttn encEgo encAllo : Grid → Int × Int → Grid) (prev prev2 : Buffers)
        (size px py qx qy p3x p3y : Int),
        newPointBuffers encAttn encEgo encAllo prev size px py qx qy p3x p3y =
          newPointBuffers encAttn encEgo encAllo prev2 size px py qx qy p3x p3y) ∧
      (∀ (encAttn encEgo encAllo : Grid → Int × Int → Bool → Grid) (prev prev2 : Buffers)
        (px py qx qy p3x p3y : Int),
        newPointBuffersPart2 encAttn encEgo encAllo prev px py qx qy p3x p3y =
          newPointBuffersPart2 encAttn encEgo encAllo prev2 px py qx qy p3x p3y) :=
  ⟨fun _ _ _ _ _ _ _ _ _ _ _ _ => rfl, fun _ _ _ _ _ _ _ _ _ _ _ => rfl⟩

/-! ## Quadrant bounds for `atan2` -/

/-- arctan of a nonnegative argument is nonnegative. -/
theorem arctan_nonneg_of_nonneg (t : ℝ) (h : 0 ≤ t) : 0 ≤ Real.arctan t := by
  rcases h.lt_or_eq with h1 | h1
  · exact le_of_lt (by simpa using Real.arctan_strictMono h1)
  · simp [← h1]

/-- arctan of a nonpositive argument is nonpositive. -/
theorem arctan_nonpos_of_nonpos (t : ℝ) (h : t ≤ 0) : Real.arctan t ≤ 0 := by
  rcases h.lt_or_eq with h1 | h1
  · exact le_of_lt (by simpa using Real.arctan_strictMono h1)
  · simp [h1]

/-- arctan of a negative argument is negative. -/
theorem arctan_neg_of_neg (t : ℝ) (h : t < 0) : Real.arctan t < 0 := by
  simpa using Real.arctan_strictMono h

/-- arctan of a positive argument is positive. -/
theorem arctan_pos_of_pos (t : ℝ) (h : 0 < t) : 0 < Real.arctan t := by
  simpa using Real.arctan_strictMono h

/-- In the closed first quadrant (origin excluded), `atan2` lies in
`[0, π/2]`. -/
theorem atan2_q1 (y x : ℝ) (hx : 0 ≤ x) (hy : 0 ≤ y) (hne : ¬(x = 0 ∧ y = 0)) :
    0 ≤ atan2 y x ∧ atan2 y x ≤ Real.pi / 2 := by
  have hpi := Real.pi_pos
  unfold atan2
  rcases hx.lt_or_eq with hx1 | hx1
  · rw [if_pos hx1]
    exact ⟨arctan_nonneg_of_nonneg _ (div_nonneg hy hx1.le),
      le_of_lt (Real.arctan_lt_pi_div_two _)⟩
  · have hy1 : 0 < y := lt_of_le_of_ne hy (fun h2 => hne ⟨hx1.symm, h2.symm⟩)
    rw [if_neg (by rw [← hx1]; exact lt_irrefl 0), if_neg (by rw [← hx1]; exact lt_irrefl 0),
      if_pos hy1]
    constructor
    · linarith
    · linarith

/-- For `x < 0 ≤ y`, `atan2` lies in `(π/2, π]`. -/
theorem atan2_q2 (y x : ℝ) (hx : x < 0) (hy : 0 ≤ y) :
    Real.pi / 2 < atan2 y x ∧ atan2 y x ≤ Real.pi := by
  unfold atan2
  rw [if_neg (not_lt.mpr hx.le), if_pos hx, if_pos hy]
  have h1 : y / x ≤ 0 := by
    rcases hy.lt_or_eq with h2 | h2
    · exact le_of_lt (div_neg_of_pos_of_neg h2 hx)
    · rw [← h2, zero_div]
  have h2 := Real.neg_pi_div_two_lt_arctan (y / x)
  have h3 := arctan_nonpos_of_nonpos _ h1
  constructor
  · linarith
  · linarith

/-- For `y < 0 ≤ x`, `atan2` lies in `[-(π/2), 0)`. -/
theorem atan2_q4 (y x : ℝ) (hx : 0 ≤ x) (hy : y < 0) :
    -(Real.pi / 2) ≤ atan2 y x ∧ atan2 y x < 0 := by
  have hpi := Real.pi_pos
  unfold atan2
  rcases hx.lt_or_eq with hx1 | hx1
  · rw [if_pos hx1]
    exact ⟨le_of_lt (Real.neg_pi_div_two_lt_arctan _),
      arctan_neg_of_neg _ (div_neg_of_neg_of_pos hy hx1)⟩
  · rw [if_neg (by rw [← hx1]; exact lt_irrefl 0), if_neg (by rw [← hx1]; exact lt_irrefl 0),
      if_neg (by linarith), if_pos hy]
    constructor
    · linarith
    · linarith

/-- In the open third quadrant, `atan2` lies in `(-π, -(π/2))`. -/
theorem atan2_q3 (y x : ℝ) (hx : x < 0) (hy : y < 0) :
    -Real.pi < atan2 y x ∧ atan2 y x < -(Real.pi / 2) := by
  unfold atan2
  rw [if_neg (not_lt.mpr hx.le), if_pos hx, if_neg (not_le.mpr hy)]
  have h1 : 0 < y / x := div_pos_of_neg_of_neg hy hx
  have h2 := arctan_pos_of_pos _ h1
  have h3 := Real.arctan_lt_pi_div_two (y / x)
  constructor
  · linarith
  · linarith

/-! ## Degree conversion -/

/-- Multiplication by the positive factor `180 / π` preserves `≤`. -/
theorem deg_le_deg (a b : ℝ) (h : a ≤ b) : a * 180 / Real.pi ≤ b * 180 / Real.pi := by
  have hpi := Real.pi_pos
  exact (div_le_div_iff_of_pos_right hpi).mpr (by linarith)

/-- Multiplication by the positive factor `180 / π` preserves `<`. -/
theorem deg_lt_deg (a b : ℝ) (h : a < b) : a * 180 / Real.pi < b * 180 / Real.pi := by
  have hpi := Real.pi_pos
  exact (div_lt_div_iff_of_pos_right hpi).mpr (by linarith)

/-- The degree value of `π/2`. -/
theorem deg_pi_div_two : Real.pi / 2 * 180 / Real.pi = 90 := by
  field_simp
  ring

/-- The degree value of `π`. -/
theorem deg_pi : Real.pi * 180 / Real.pi = 180 := by
  field_simp

/-- The degree value of `-π`. -/
theorem deg_neg_pi : -Real.pi * 180 / Real.pi = -180 := by
  field_simp
  ring

/-- The degree value of `-(π/2)`. -/
theorem deg_neg_pi_div_two : -(Real.pi / 2) * 180 / Real.pi = -90 := by
  field_simp
  ring

/-- The `env.go` branch normalization puts the bearing angle in
`[0, 360)` for every displacement other than `(0, 0)`. -/
theorem goAng_bounds (xd yd : Int) (hne : ¬(xd = 0 ∧ yd = 0)) :
    0 ≤ goAng xd yd ∧ goAng xd yd < 360 := by
  have hpi := Real.pi_pos
  by_cases h1 : 0 ≤ xd ∧ 0 ≤ yd
  · have hxr : (0 : ℝ) ≤ (xd : ℝ) := by exact_mod_cast h1.1
    have hyr : (0 : ℝ) ≤ (yd : ℝ) := by exact_mod_cast h1.2
    have hner : ¬((xd : ℝ) = 0 ∧ (yd : ℝ) = 0) := by
      rintro ⟨ha, hb⟩
      exact hne ⟨by exact_mod_cast ha, by exact_mod_cast hb⟩
    obtain ⟨hl, hu⟩ := atan2_q1 (yd : ℝ) (xd : ℝ) hxr hyr hner
    have h90 : atan2 (yd : ℝ) (xd : ℝ) * 180 / Real.pi ≤ 90 :=
      le_of_le_of_eq (deg_le_deg _ _ hu) deg_pi_div_two
    have h0 : 0 ≤ atan2 (yd : ℝ) (xd : ℝ) * 180 / Real.pi :=
      div_nonneg (mul_nonneg hl (by norm_num)) hpi.le
    simp only [goAng, goAng0, goAng360, if_pos h1]
    constructor
    · linarith
    · linarith
  · by_cases h2 : xd < 0 ∧ 0 ≤ yd
    · have hxr : ((xd : ℝ)) < 0 := by exact_mod_cast h2.1
      have hyr : (0 : ℝ) ≤ (yd : ℝ) := by exact_mod_cast h2.2
      obtain ⟨hl, hu⟩ := atan2_q2 (yd : ℝ) (xd : ℝ) hxr hyr
      have h90 : 90 < atan2 (yd : ℝ) (xd : ℝ) * 180 / Real.pi :=
        lt_of_eq_of_lt deg_pi_div_two.symm (deg_lt_deg _ _ hl)
      have h180 : atan2 (yd : ℝ) (xd : ℝ) * 180 / Real.pi ≤ 180 :=
        le_of_le_of_eq (deg_le_deg _ _ hu) deg_pi
      simp only [goAng, goAng0, goAng360, if_neg h1, if_pos h2]
      constructor
      · linarith
      · linarith
    · by_cases h3 : 0 ≤ xd ∧ yd < 0
      · have hxr : (0 : ℝ) ≤ (xd : ℝ) := by exact_mod_cast h3.1
        have hyr : ((yd : ℝ)) < 0 := by exact_mod_cast h3.2
        obtain ⟨hl, hu⟩ := atan2_q4 (yd : ℝ) (xd : ℝ) hxr hyr
        have habs : |atan2 (yd : ℝ) (xd : ℝ)| = -atan2 (yd : ℝ) (xd : ℝ) := abs_of_neg hu
        have h1abs : -atan2 (yd : ℝ) (xd : ℝ) ≤ Real.pi / 2 := by linarith
        have h2abs : 0 < -atan2 (yd : ℝ) (xd : ℝ) := by linarith
        have h90 : -atan2 (yd : ℝ) (xd : ℝ) * 180 / Real.pi ≤ 90 :=
          le_of_le_of_eq (deg_le_deg _ _ h1abs) deg_pi_div_two
        have h0 : 0 < -atan2 (yd : ℝ) (xd : ℝ) * 180 / Real.pi :=
          div_pos (mul_pos h2abs (by norm_num)) hpi
        simp only [goAng, goAng0, goAng360, if_neg h1, if_neg h2, if_pos h3, habs]
        constructor
        · linarith
        · linarith
      · have h4 : xd < 0 ∧ yd < 0 := by omega
        have hxr : ((xd : ℝ)) < 0 := by exact_mod_cast h4.1
        have hyr : ((yd : ℝ)) < 0 := by exact_mod_cast h4.2
        obtain ⟨hl, hu⟩ := atan2_q3 (yd : ℝ) (xd : ℝ) hxr hyr
        have h180 : -180 < atan2 (yd : ℝ) (xd : ℝ) * 180 / Real.pi :=
          lt_of_eq_of_lt deg_neg_pi.symm (deg_lt_deg _ _ hl)
        have h90 : atan2 (yd : ℝ) (xd : ℝ) * 180 / Real.pi < -90 :=
          lt_of_lt_of_eq (deg_lt_deg _ _ hu) deg_neg_pi_div_two
        simp only [goAng, goAng0, goAng360, if_neg h1, if_neg h2, if_neg h3]
        constructor
        · linarith
        · linarith

/-- Displacements bounded by the grid give distances at most
`size * sqrt 2`. -/
theorem goDist_le (size xd yd : Int) (hs : 1 ≤ size)
    (hx1 : -(size - 1) ≤ xd) (hx2 : xd ≤ size - 1)
    (hy1 : -(size - 1) ≤ yd) (hy2 : yd ≤ size - 1) :
    goDist xd yd ≤ (size : ℝ) * Real.sqrt 2 := by
  have hsr : (1 : ℝ) ≤ (size : ℝ) := by exact_mod_cast hs
  have hx1r : -((size : ℝ) - 1) ≤ (xd : ℝ) := by exact_mod_cast hx1
  have hx2r : (xd : ℝ) ≤ (size : ℝ) - 1 := by exact_mod_cast hx2
  have hy1r : -((size : ℝ) - 1) ≤ (yd : ℝ) := by exact_mod_cast hy1
  have hy2r : (yd : ℝ) ≤ (size : ℝ) - 1 := by exact_mod_cast hy2
  have hxsq : (xd : ℝ) ^ 2 ≤ ((size : ℝ) - 1) ^ 2 := sq_le_sq' hx1r hx2r
  have hysq : (yd : ℝ) ^ 2 ≤ ((size : ℝ) - 1) ^ 2 := sq_le_sq' hy1r hy2r
  have h2 : (xd : ℝ) ^ 2 + (yd : ℝ) ^ 2 ≤ ((size : ℝ) * Real.sqrt 2) ^ 2 := by
    rw [mul_pow, Real.sq_sqrt (by norm_num : (0 : ℝ) ≤ 2)]
    nlinarith
  calc goDist xd yd ≤ Real.sqrt (((size : ℝ) * Real.sqrt 2) ^ 2) := Real.sqrt_le_sqrt h2
    _ = (size : ℝ) * Real.sqrt 2 :=
        Real.sqrt_sq (mul_nonneg (by linarith) (Real.sqrt_nonneg 2))

/-- C5 amended, part that holds: in the `env.go` variant, for every pair
of distinct points of a grid of size at least 2, the derived Euclidean
distance lies in `[0, size * sqrt 2]` and the derived bearing angle lies
in `[0, 360)`.  (The `unnamed/part_003` variant's angle is not normalized
into `[0, 360)`; see the counterexample.) -/
theorem c5_dist_ang_bounds (size px py qx qy : Int) (hsize : 2 ≤ size)
    (hpx1 : 0 ≤ px) (hpx2 : px < size) (hpy1 : 0 ≤ py) (hpy2 : py < size)
    (hqx1 : 0 ≤ qx) (hqx2 : qx < size) (hqy1 : 0 ≤ qy) (hqy2 : qy < size)
    (hne : (px, py) ≠ (qx, qy)) :
    0 ≤ goDist (qx - px) (qy - py) ∧
      goDist (qx - px) (qy - py) ≤ (size : ℝ) * Real.sqrt 2 ∧
      0 ≤ goAng (qx - px) (qy - py) ∧ goAng (qx - px) (qy - py) < 360 := by
  have hne2 : ¬(qx - px = 0 ∧ qy - py = 0) := by
    rintro ⟨h1, h2⟩
    have hx : px = qx := by omega
    have hy : py = qy := by omega
    exact hne (by rw [hx, hy])
  obtain ⟨ha1, ha2⟩ := goAng_bounds (qx - px) (qy - py) hne2
  exact ⟨Real.sqrt_nonneg _,
    goDist_le size (qx - px) (qy - py) (by omega) (by omega) (by omega) (by omega) (by omega),
    ha1, ha2⟩

/-- C5 amended, witness: grid size 2, points `(0, 0)` and `(1, 1)`. -/
theorem c5_dist_ang_bounds_witness :
    (2 : Int) ≤ 2 ∧
      (0 ≤ goDist (1 - 0) (1 - 0) ∧
        goDist (1 - 0) (1 - 0) ≤ ((2 : Int) : ℝ) * Real.sqrt 2 ∧
        0 ≤ goAng (1 - 0) (1 - 0) ∧ goAng (1 - 0) (1 - 0) < 360) :=
  ⟨by decide,
    c5_dist_ang_bounds 2 0 0 1 1 (by decide) (by decide) (by decide) (by decide)
      (by decide) (by decide) (by decide) (by decide) (by decide) (by decide)⟩

/-- C5 counterexample: the claim quantifies over every configured
environment, and its cited `unnamed/part_003` variant computes
`ang = MaxAngle * (Atan2(yDist, xDist) / π)` with `MaxAngle = 10` set by
that variant's `Config`.  For `Point = (0, 1)` and `Point2 = (0, 0)` on a
grid of size 2 this derived angle is `-5`, which does not lie in
`[0, 360)`. -/
theorem c5_counterexample_part3 :
    part3Ang 10 0 1 0 0 = -5 ∧ ¬(0 ≤ part3Ang 10 0 1 0 0) := by
  have h : part3Ang 10 0 1 0 0 = -5 := by
    have hx : ((0 : Int) : ℝ) - ((0 : Int) : ℝ) = 0 := by norm_num
    have hy : ((0 : Int) : ℝ) - ((1 : Int) : ℝ) = -1 := by norm_num
    unfold part3Ang
    rw [hx, hy]
    unfold atan2
    rw [if_neg (lt_irrefl 0), if_neg (lt_irrefl 0), if_neg (by norm_num : ¬((0 : ℝ) < -1)),
      if_pos (by norm_num : (-1 : ℝ) < 0)]
    field_simp
    ring
  refine ⟨h, ?_⟩
  rw [h]
  norm_num

end SpatialAnalogies
